import Mathlib

/-!
Verification of psp-logger (src/lib.rs): a logging facade for the PSP that
routes five severity levels to the two kernel output streams.

The Rust source is shallowly embedded: the configuration record and its
builder methods become pure Lean functions with the source field names; the
global installation state (the spin Once cell LOGGER_CONF, the log crate's
registered-logger flag and max level) becomes an explicit GlobalState record
threaded through PspLogger.init; the kernel write primitive sceIoWrite is
made observable as a WriteCall value recording the resolved stream handle
and the exact bytes written; reading the empty cell (Option.none) stands for
the panic of Option::unwrap on an uninstalled configuration.
-/

/-- Output streams of the PSP kernel, from the source enum OutputStream.
StdOut is the Primary channel of the specification and StdErr the Secondary
channel. -/
inductive OutputStream
  | StdOut
  | StdErr
  deriving DecidableEq

/-- Severity levels from the log crate, most to least severe. -/
inductive Level
  | Error
  | Warn
  | Info
  | Debug
  | Trace
  deriving DecidableEq

/-- Level filters from the log crate: Off, or one of the five levels. -/
inductive LevelFilter
  | Off
  | Error
  | Warn
  | Info
  | Debug
  | Trace
  deriving DecidableEq

/-- Numeric discriminant of Level in the log crate (repr usize, Error = 1
through Trace = 5). -/
def Level.toUsize : Level → Nat
  | .Error => 1
  | .Warn => 2
  | .Info => 3
  | .Debug => 4
  | .Trace => 5

/-- Numeric discriminant of LevelFilter in the log crate (repr usize,
Off = 0 through Trace = 5). -/
def LevelFilter.toUsize : LevelFilter → Nat
  | .Off => 0
  | .Error => 1
  | .Warn => 2
  | .Info => 3
  | .Debug => 4
  | .Trace => 5

/-- The comparison level <= level_filter used in PspLogger::enabled, given
by the log crate's PartialOrd between Level and LevelFilter: both sides are
compared as usize. -/
def Level.leFilter (l : Level) (f : LevelFilter) : Bool :=
  decide (l.toUsize ≤ f.toUsize)

/-- Configuration for the logger, from the source struct PspLoggerConfig. -/
structure PspLoggerConfig where
  error_stream : OutputStream
  warn_stream : OutputStream
  info_stream : OutputStream
  debug_stream : OutputStream
  trace_stream : OutputStream
  level_filter : LevelFilter
  deriving DecidableEq

/-- PspLoggerConfig::new - all log levels initially mapped to stderr. -/
def PspLoggerConfig.new (level_filter : LevelFilter) : PspLoggerConfig :=
  { error_stream := OutputStream.StdErr
    warn_stream := OutputStream.StdErr
    info_stream := OutputStream.StdErr
    debug_stream := OutputStream.StdErr
    trace_stream := OutputStream.StdErr
    level_filter := level_filter }

/-- PspLoggerConfig::with_error_stream. -/
def PspLoggerConfig.with_error_stream (c : PspLoggerConfig) (stream : OutputStream) :
    PspLoggerConfig :=
  { c with error_stream := stream }

/-- PspLoggerConfig::with_warn_stream. -/
def PspLoggerConfig.with_warn_stream (c : PspLoggerConfig) (stream : OutputStream) :
    PspLoggerConfig :=
  { c with warn_stream := stream }

/-- PspLoggerConfig::with_info_stream. -/
def PspLoggerConfig.with_info_stream (c : PspLoggerConfig) (stream : OutputStream) :
    PspLoggerConfig :=
  { c with info_stream := stream }

/-- PspLoggerConfig::with_debug_stream. -/
def PspLoggerConfig.with_debug_stream (c : PspLoggerConfig) (stream : OutputStream) :
    PspLoggerConfig :=
  { c with debug_stream := stream }

/-- PspLoggerConfig::with_trace_stream. -/
def PspLoggerConfig.with_trace_stream (c : PspLoggerConfig) (stream : OutputStream) :
    PspLoggerConfig :=
  { c with trace_stream := stream }

/-- PspLoggerConfig::get_stream - pure lookup of the stream for a level. -/
def PspLoggerConfig.get_stream (c : PspLoggerConfig) (level : Level) : OutputStream :=
  match level with
  | Level.Error => c.error_stream
  | Level.Warn => c.warn_stream
  | Level.Info => c.info_stream
  | Level.Debug => c.debug_stream
  | Level.Trace => c.trace_stream

/-- Dispatcher over the five with_X_stream builder methods, indexed by the
level whose mapping they override. -/
def PspLoggerConfig.with_stream (c : PspLoggerConfig) (level : Level)
    (stream : OutputStream) : PspLoggerConfig :=
  match level with
  | Level.Error => c.with_error_stream stream
  | Level.Warn => c.with_warn_stream stream
  | Level.Info => c.with_info_stream stream
  | Level.Debug => c.with_debug_stream stream
  | Level.Trace => c.with_trace_stream stream

/-- One call to the kernel write primitive sceIoWrite: the stream whose
handle was resolved, and the exact bytes passed with their length. -/
structure WriteCall where
  handle : OutputStream
  bytes : String
  deriving DecidableEq

/-- Embeds psp_write: resolve the stream handle, render the message, append
a newline and a NUL terminator, and issue one sceIoWrite of those bytes. -/
def psp_write (stream : OutputStream) (args : String) : WriteCall :=
  { handle := stream, bytes := args ++ "\n\x00" }

/-- Embeds PspLogger::enabled.  The argument is the content of the
LOGGER_CONF cell; Option.none models the panic of unwrap on an empty cell. -/
def PspLogger.enabled (conf : Option PspLoggerConfig) (level : Level) : Option Bool :=
  match conf with
  | none => none
  | some c => some (level.leFilter c.level_filter)

/-- Embeds PspLogger::log.  The result is the list of write calls issued,
or Option.none when the unconditional read of LOGGER_CONF panics.  As in the
source, the stream is resolved before the enabled check. -/
def PspLogger.log (conf : Option PspLoggerConfig) (level : Level) (args : String) :
    Option (List WriteCall) := do
  let c ← conf
  let output := c.get_stream level
  let e ← PspLogger.enabled conf level
  if e then
    pure [psp_write output args]
  else
    pure []

/-- Error type log::SetLoggerError, returned by the log crate when a logger
has already been registered. -/
inductive SetLoggerError
  | mk
  deriving DecidableEq

/-- Process-wide state: the LOGGER_CONF once-cell, whether log::set_logger
has already registered a logger, and the log crate's ambient max level. -/
structure GlobalState where
  logger_conf : Option PspLoggerConfig
  logger_set : Bool
  max_level : LevelFilter
  deriving DecidableEq

/-- State at process start: empty cell, no logger registered, max level Off
(the log crate's default). -/
def GlobalState.initial : GlobalState :=
  { logger_conf := none, logger_set := false, max_level := LevelFilter.Off }

/-- spin Once call_once - stores the value only when the cell is empty;
a later call discards its argument. -/
def call_once (st : GlobalState) (config : PspLoggerConfig) : GlobalState :=
  match st.logger_conf with
  | none => { st with logger_conf := some config }
  | some c => { st with logger_conf := some c }

/-- log::set_logger - fails when a logger is already registered. -/
def set_logger (st : GlobalState) : GlobalState × Except SetLoggerError Unit :=
  if st.logger_set then (st, Except.error SetLoggerError.mk)
  else ({ st with logger_set := true }, Except.ok ())

/-- log::set_max_level. -/
def set_max_level (st : GlobalState) (f : LevelFilter) : GlobalState :=
  { st with max_level := f }

/-- Embeds PspLogger::init: read the filter from the config, call_once the
config into LOGGER_CONF, register the logger, and only on success set the
ambient max level to the filter. -/
def PspLogger.init (st : GlobalState) (config : PspLoggerConfig) :
    GlobalState × Except SetLoggerError Unit :=
  let level_filter := config.level_filter
  let st1 := call_once st config
  match set_logger st1 with
  | (st2, Except.ok _) => (set_max_level st2 level_filter, Except.ok ())
  | (st2, Except.error e) => (st2, Except.error e)

/-- Severity ranking as stated in the specification: Error = 1, Warn = 2,
Info = 3, Debug = 4, Trace = 5. -/
def specRank : Level → Nat
  | Level.Error => 1
  | Level.Warn => 2
  | Level.Info => 3
  | Level.Debug => 4
  | Level.Trace => 5

/-- Threshold ranking as stated in the specification, a threshold of Off
having rank 0. -/
def specRankThreshold : LevelFilter → Nat
  | LevelFilter.Off => 0
  | LevelFilter.Error => 1
  | LevelFilter.Warn => 2
  | LevelFilter.Info => 3
  | LevelFilter.Debug => 4
  | LevelFilter.Trace => 5

/-- The comparison from the log crate agrees pointwise with the ranking
written in the specification. -/
theorem leFilter_eq_specRank (l : Level) (f : LevelFilter) :
    Level.leFilter l f = decide (specRank l ≤ specRankThreshold f) := by
  cases l <;> cases f <;> decide

/-- C1: for every severity level L and every installed configuration with
threshold T, is_enabled(L) returns true if and only if
specRank L <= specRankThreshold T, where Error, Warn, Info, Debug, Trace
rank 1 through 5 and the Off threshold ranks 0 and so enables nothing. -/
theorem enabled_matches_spec_rank (c : PspLoggerConfig) (l : Level) :
    PspLogger.enabled (some c) l =
      some (decide (specRank l ≤ specRankThreshold c.level_filter)) := by
  show some (Level.leFilter l c.level_filter) = _
  rw [leFilter_eq_specRank]

/-- C2: under an installed configuration, a log event whose level is enabled
causes exactly one write call, to the handle of the stream the configuration
assigns to that level, and the bytes written are the rendered message
followed by one newline byte and one NUL byte. -/
theorem log_enabled_writes_once (c : PspLoggerConfig) (l : Level) (args : String)
    (h : Level.leFilter l c.level_filter = true) :
    PspLogger.log (some c) l args =
      some [{ handle := c.get_stream l, bytes := args ++ "\n\x00" }] := by
  simp [PspLogger.log, PspLogger.enabled, psp_write, h]

/-- Witness for C2, the scenario named in the claim: under
new(Debug).with_debug_stream(StdOut), a Debug event with payload ready
yields one write of ready, newline, NUL to the StdOut (Primary) handle. -/
theorem log_enabled_writes_once_witness :
    Level.leFilter Level.Debug ((PspLoggerConfig.new LevelFilter.Debug).with_debug_stream
        OutputStream.StdOut).level_filter = true ∧
    PspLogger.log (some ((PspLoggerConfig.new LevelFilter.Debug).with_debug_stream
        OutputStream.StdOut)) Level.Debug "ready" =
      some [{ handle := OutputStream.StdOut, bytes := "ready\n\x00" }] :=
  ⟨rfl, log_enabled_writes_once
    ((PspLoggerConfig.new LevelFilter.Debug).with_debug_stream OutputStream.StdOut)
    Level.Debug "ready" rfl⟩

/-- C3: once install has succeeded (the cell holds a configuration and the
logger is registered), a repeated init call leaves the whole global state
unchanged, so the second configuration and its threshold have no effect on
later is_enabled evaluations or channel resolution, and the call returns the
SetLoggerError conflict error. -/
theorem init_repeat_keeps_config (st : GlobalState) (c₀ c₁ : PspLoggerConfig)
    (h1 : st.logger_conf = some c₀) (h2 : st.logger_set = true) :
    PspLogger.init st c₁ = (st, Except.error SetLoggerError.mk) := by
  cases st
  simp only [GlobalState.logger_conf, GlobalState.logger_set] at h1 h2
  subst h1 h2
  rfl

/-- Witness for C3: after installing new(Error), a second init with
new(Trace) returns the conflict error and changes nothing. -/
theorem init_repeat_keeps_config_witness :
    (GlobalState.mk (some (PspLoggerConfig.new LevelFilter.Error)) true
        LevelFilter.Error).logger_conf = some (PspLoggerConfig.new LevelFilter.Error) ∧
    (GlobalState.mk (some (PspLoggerConfig.new LevelFilter.Error)) true
        LevelFilter.Error).logger_set = true ∧
    PspLogger.init (GlobalState.mk (some (PspLoggerConfig.new LevelFilter.Error)) true
        LevelFilter.Error) (PspLoggerConfig.new LevelFilter.Trace) =
      (GlobalState.mk (some (PspLoggerConfig.new LevelFilter.Error)) true
        LevelFilter.Error, Except.error SetLoggerError.mk) :=
  ⟨rfl, rfl, init_repeat_keeps_config
    (GlobalState.mk (some (PspLoggerConfig.new LevelFilter.Error)) true LevelFilter.Error)
    (PspLoggerConfig.new LevelFilter.Error) (PspLoggerConfig.new LevelFilter.Trace)
    rfl rfl⟩

/-- C4: with the configuration cell still empty, both enabled and log panic
(return none): log reads the cell unconditionally, before the filter check,
so it panics for every level and never falls back to a default. -/
theorem uninitialized_access_panics (l : Level) (args : String) :
    PspLogger.enabled none l = none ∧ PspLogger.log none l args = none :=
  ⟨rfl, rfl⟩

/-- C5: under an installed configuration, a log event whose level is not
enabled issues no write call: log returns normally with an empty write list
and touches no state. -/
theorem log_disabled_writes_nothing (c : PspLoggerConfig) (l : Level) (args : String)
    (h : Level.leFilter l c.level_filter = false) :
    PspLogger.log (some c) l args = some [] := by
  simp [PspLogger.log, PspLogger.enabled, h]

/-- Witness for C5: under a Debug threshold, a Trace event produces no
write. -/
theorem log_disabled_writes_nothing_witness :
    Level.leFilter Level.Trace (PspLoggerConfig.new LevelFilter.Debug).level_filter
      = false ∧
    PspLogger.log (some (PspLoggerConfig.new LevelFilter.Debug)) Level.Trace "x"
      = some [] :=
  ⟨rfl, log_disabled_writes_nothing (PspLoggerConfig.new LevelFilter.Debug)
    Level.Trace "x" rfl⟩

/-- C6: new(T) assigns StdErr (the Secondary channel) to every level and has
threshold T; get_stream on it returns StdErr for every level. -/
theorem new_routes_all_to_stderr (t : LevelFilter) (l : Level) :
    (PspLoggerConfig.new t).get_stream l = OutputStream.StdErr ∧
    (PspLoggerConfig.new t).level_filter = t := by
  cases l <;> exact ⟨rfl, rfl⟩

/-- C7: with_stream for level X changes only X's mapping: every level looks
up the new stream exactly when it equals X and its old stream otherwise, and
the threshold is unchanged. -/
theorem with_stream_only_changes_target (c : PspLoggerConfig) (x y : Level)
    (ch : OutputStream) :
    ((c.with_stream x ch).get_stream y = if y = x then ch else c.get_stream y) ∧
    (c.with_stream x ch).level_filter = c.level_filter := by
  cases x <;> cases y <;>
    simp [PspLoggerConfig.with_stream, PspLoggerConfig.get_stream,
      PspLoggerConfig.with_error_stream, PspLoggerConfig.with_warn_stream,
      PspLoggerConfig.with_info_stream, PspLoggerConfig.with_debug_stream,
      PspLoggerConfig.with_trace_stream]

/-- C8: applying the same with_stream override twice yields exactly the
configuration obtained by applying it once. -/
theorem with_stream_idempotent (c : PspLoggerConfig) (x : Level) (ch : OutputStream) :
    (c.with_stream x ch).with_stream x ch = c.with_stream x ch := by
  cases c
  cases x <;> rfl

/-- C9: overrides of two distinct levels commute: applying them in either
order yields exactly the same configuration. -/
theorem with_stream_distinct_commute (c : PspLoggerConfig) (x y : Level)
    (ch₁ ch₂ : OutputStream) (h : x ≠ y) :
    (c.with_stream x ch₁).with_stream y ch₂ =
      (c.with_stream y ch₂).with_stream x ch₁ := by
  cases c
  cases x <;> cases y <;> first
    | exact absurd rfl h
    | rfl

/-- Witness for C9: overriding Error then Warn equals overriding Warn then
Error on a fresh configuration. -/
theorem with_stream_distinct_commute_witness :
    Level.Error ≠ Level.Warn ∧
    ((PspLoggerConfig.new LevelFilter.Info).with_stream Level.Error
        OutputStream.StdOut).with_stream Level.Warn OutputStream.StdOut =
      ((PspLoggerConfig.new LevelFilter.Info).with_stream Level.Warn
        OutputStream.StdOut).with_stream Level.Error OutputStream.StdOut :=
  ⟨by decide, with_stream_distinct_commute (PspLoggerConfig.new LevelFilter.Info)
    Level.Error Level.Warn OutputStream.StdOut OutputStream.StdOut (by decide)⟩

/-- C10: two successive overrides of the same level obey last-write-wins:
the result equals applying only the second override. -/
theorem with_stream_last_write_wins (c : PspLoggerConfig) (x : Level)
    (ch₁ ch₂ : OutputStream) :
    (c.with_stream x ch₁).with_stream x ch₂ = c.with_stream x ch₂ := by
  cases c
  cases x <;> rfl
